import Mathlib

/-!
Verification development for the mLLMCelltype annotation pipeline.

The definitions below are a shallow embedding of the Python sources
`mllmcelltype/annotate.py` and `mllmcelltype/providers/openrouter.py`:
pure string manipulation is translated into Lean functions named after the
Python operations they model, the provider HTTP calls and the on-disk cache
are modelled as an explicit environment (`HttpOutcome` streams, a `World`
record), and Python exceptions become `Except` results.  Logging calls
(`write_log`, `setup_logging`) have no effect on the values computed and are
omitted.  Theorems at the end of the file settle the specification claims.
-/

namespace MLLMCelltype

/-! ## Python string primitives -/

/-- Characters removed by Python `str.strip()` (ASCII whitespace). -/
def pyIsSpace (c : Char) : Bool :=
  c = ' ' || c = '\t' || c = '\n' || c = '\r' || c = '\x0b' || c = '\x0c'

/-- Python `str.strip()`: remove leading and trailing whitespace. -/
def pyStrip (s : String) : String :=
  ⟨((s.data.dropWhile pyIsSpace).reverse.dropWhile pyIsSpace).reverse⟩

/-- Python `str.rstrip(c)` for a one-character argument: remove every
trailing occurrence of `c`. -/
def pyRstripChar (c : Char) (s : String) : String :=
  ⟨(s.data.reverse.dropWhile (· = c)).reverse⟩

/-- Helper for `pySplitNl`. -/
def splitNlAux : List Char → List Char → List String
  | [], cur => [⟨cur.reverse⟩]
  | c :: rest, cur =>
    if c = '\n' then ⟨cur.reverse⟩ :: splitNlAux rest []
    else splitNlAux rest (c :: cur)

/-- Python `s.split("\n")`. -/
def pySplitNl (s : String) : List String :=
  splitNlAux s.data []

/-- Join a list of strings with a separator (`sep.join(xs)`). -/
def strJoin (sep : String) : List String → String
  | [] => ""
  | [x] => x
  | x :: y :: rest => x ++ sep ++ strJoin sep (y :: rest)

/-- Python `s.startswith(pat)`. -/
def pyStartsWith (s pat : String) : Bool :=
  pat.data.isPrefixOf s.data

/-- Helper for `pySplitWs`: split a character list on whitespace runs. -/
def splitWsAux : List Char → List Char → List String
  | [], cur => if cur.isEmpty then [] else [⟨cur.reverse⟩]
  | c :: rest, cur =>
    if pyIsSpace c then
      if cur.isEmpty then splitWsAux rest []
      else ⟨cur.reverse⟩ :: splitWsAux rest []
    else splitWsAux rest (c :: cur)

/-- Python `s.split()` with no argument: split on whitespace runs,
discarding empty pieces. -/
def pySplitWs (s : String) : List String :=
  splitWsAux s.data []

/-- Helper for `pySplitColonOnce`. -/
def splitColonAux : List Char → List Char → String × Option String
  | [], acc => (⟨acc.reverse⟩, none)
  | c :: rest, acc =>
    if c = ':' then (⟨acc.reverse⟩, some ⟨rest⟩)
    else splitColonAux rest (c :: acc)

/-- Python `s.split(":", 1)`: the text before the first colon, and the rest
after it when a colon is present. -/
def pySplitColonOnce (s : String) : String × Option String :=
  splitColonAux s.data []

/-- Decimal digit run to `Nat`; `none` when empty or not all digits. -/
def parseDigits (l : List Char) : Option Nat :=
  if l.isEmpty || l.any (fun c => !c.isDigit) then none
  else some (l.foldl (fun a c => a * 10 + (c.toNat - '0'.toNat)) 0)

/-- Python `int(s)` for the inputs reachable here: surrounding whitespace,
an optional sign, then decimal digits; anything else raises `ValueError`,
modelled as `none`. -/
def pyParseInt (s : String) : Option Int :=
  match (pyStrip s).data with
  | '-' :: ds => (parseDigits ds).map (fun n => -(n : Int))
  | '+' :: ds => (parseDigits ds).map (fun n => (n : Int))
  | ds => (parseDigits ds).map (fun n => (n : Int))

/-- Python `str.lower()` (ASCII, which covers every provider name used). -/
def pyLower (s : String) : String :=
  ⟨s.data.map Char.toLower⟩

/-! ## OpenRouter provider adapter (`providers/openrouter.py`) -/

/-- Outcome of one HTTP POST to the OpenRouter endpoint, as distinguished by
`process_openrouter`: a 200 response with a well-formed body (carrying the
message content string), a 429 rate-limit response, or any other failure
(non-200 status, network error, timeout, or malformed body — all of which
reach the `except` handler in the source). -/
inductive HttpOutcome where
  | success (content : String)
  | rateLimited
  | failure
  deriving DecidableEq

/-- Whether an attempt outcome is a 200 success. -/
def HttpOutcome.isSuccess : HttpOutcome → Bool
  | .success _ => true
  | _ => false

/-- Errors raised by `process_openrouter`: the explicit `ValueError` for a
missing key, or the re-raised request error after retries are exhausted. -/
inductive ORError where
  | valueError (msg : String)
  | httpError
  deriving DecidableEq

/-- Trace of one `process_openrouter` call: the returned lines or the raised
error, the number of HTTP request attempts issued, and the waits (in
seconds) slept between failed attempts, in order. -/
structure ORTrace where
  result : Except ORError (List String)
  attempts : Nat
  waits : List Nat

/-- The retry loop of `process_openrouter` (`for attempt in
range(max_retries)`), for one chunk.  `env` gives the outcome of the HTTP
request at each attempt index.  On a non-final failed attempt the code
sleeps `retryDelay * 2 ^ attempt` seconds and retries (both on a 429 inside
the `try` and on an exception in the `except` handler); on the final failed
attempt the error is re-raised.  `fuel` is the number of loop iterations
remaining, `attempt` the current index; the returned triple is (result,
attempts made, waits slept). -/
def retryAux (env : Nat → HttpOutcome) (maxRetries retryDelay : Nat) :
    Nat → Nat → Except Unit String × Nat × List Nat
  | _, 0 => (.error (), 0, [])
  | attempt, fuel + 1 =>
    match env attempt with
    | .success c => (.ok c, 1, [])
    | .rateLimited =>
      if attempt < maxRetries - 1 then
        let r := retryAux env maxRetries retryDelay (attempt + 1) fuel
        (r.1, r.2.1 + 1, retryDelay * 2 ^ attempt :: r.2.2)
      else (.error (), 1, [])
    | .failure =>
      if attempt < maxRetries - 1 then
        let r := retryAux env maxRetries retryDelay (attempt + 1) fuel
        (r.1, r.2.1 + 1, retryDelay * 2 ^ attempt :: r.2.2)
      else (.error (), 1, [])

/-- The whole retry loop starting at attempt 0. -/
def openrouterRetry (env : Nat → HttpOutcome) (maxRetries retryDelay : Nat) :
    Except Unit String × Nat × List Nat :=
  retryAux env maxRetries retryDelay 0 maxRetries

/-- `process_openrouter(prompt, model, api_key)`.  A missing or empty
`api_key` raises `ValueError` before any request.  Otherwise the prompt is
processed as a single chunk (`cutnum = 1`), the retry loop runs with
`max_retries = 3` and `retry_delay = 2`, a successful response content is
stripped and split on newlines, and every returned line has its trailing
commas removed (`line.rstrip(",")`). -/
def process_openrouter (prompt model apiKey : String)
    (env : Nat → HttpOutcome) : ORTrace :=
  if apiKey = "" then
    { result := .error (.valueError "OpenRouter API key is missing or empty")
      attempts := 0
      waits := [] }
  else
    let t := openrouterRetry env 3 2
    { result :=
        match t.1 with
        | .ok content => .ok ((pySplitNl (pyStrip content)).map (pyRstripChar ','))
        | .error _ => .error .httpError
      attempts := t.2.1
      waits := t.2.2 }

/-! ## JSON values and `json.loads`

The batch-result parser in `annotate.py` falls back to `json.loads` on text
extracted by two regular expressions.  JSON numbers are modelled as
rationals together with an integer flag (IEEE floating point itself is not
modelled; this only affects the string rendering of non-integer numeric
values, never the key structure of any result).  `\uXXXX` escapes are
decoded without surrogate pairing. -/

inductive Json where
  | jnull
  | jbool (b : Bool)
  | jnum (q : ℚ) (isInt : Bool)
  | jstr (s : String)
  | jarr (xs : List Json)
  | jobj (kvs : List (String × Json))

/-- Python-dict insertion (last value wins, first position kept) on an
association list with string keys. -/
def objInsert (kvs : List (String × Json)) (k : String) (v : Json) :
    List (String × Json) :=
  if kvs.any (fun p => p.1 = k) then
    kvs.map (fun p => if p.1 = k then (k, v) else p)
  else kvs ++ [(k, v)]

/-- JSON whitespace (the characters `json.loads` skips between tokens). -/
def jsonWs (c : Char) : Bool :=
  c = ' ' || c = '\t' || c = '\n' || c = '\r'

/-- Skip JSON whitespace. -/
def skipWsJson : List Char → List Char
  | c :: rest => if jsonWs c then skipWsJson rest else c :: rest
  | [] => []

/-- Value of one hexadecimal digit. -/
def hexVal (c : Char) : Option Nat :=
  if '0' ≤ c ∧ c ≤ '9' then some (c.toNat - '0'.toNat)
  else if 'a' ≤ c ∧ c ≤ 'f' then some (c.toNat - 'a'.toNat + 10)
  else if 'A' ≤ c ∧ c ≤ 'F' then some (c.toNat - 'A'.toNat + 10)
  else none

/-- Body of a JSON string literal (after the opening quote): returns the
decoded string and the input after the closing quote; `none` models a
`JSONDecodeError` (unterminated string, bad escape, raw control char). -/
def parseStrAux : List Char → List Char → Option (String × List Char)
  | [], _ => none
  | '"' :: rest, acc => some (⟨acc.reverse⟩, rest)
  | '\\' :: rest, acc =>
    match rest with
    | [] => none
    | 'u' :: rest2 =>
      match rest2 with
      | a :: b :: c :: d :: rest3 =>
        match hexVal a, hexVal b, hexVal c, hexVal d with
        | some ha, some hb, some hc, some hd =>
          parseStrAux rest3 (Char.ofNat (((ha * 16 + hb) * 16 + hc) * 16 + hd) :: acc)
        | _, _, _, _ => none
      | _ => none
    | e :: rest2 =>
      if e = '"' then parseStrAux rest2 ('"' :: acc)
      else if e = '\\' then parseStrAux rest2 ('\\' :: acc)
      else if e = '/' then parseStrAux rest2 ('/' :: acc)
      else if e = 'b' then parseStrAux rest2 ('\x08' :: acc)
      else if e = 'f' then parseStrAux rest2 ('\x0c' :: acc)
      else if e = 'n' then parseStrAux rest2 ('\n' :: acc)
      else if e = 'r' then parseStrAux rest2 ('\r' :: acc)
      else if e = 't' then parseStrAux rest2 ('\t' :: acc)
      else none
  | c :: rest, acc =>
    if c.toNat < 0x20 then none else parseStrAux rest (c :: acc)

/-- Take a maximal run of decimal digits. -/
def takeDigits : List Char → List Char × List Char
  | c :: rest =>
    if c.isDigit then
      let p := takeDigits rest
      (c :: p.1, p.2)
    else ([], c :: rest)
  | [] => ([], [])

/-- Numeric value of a digit run. -/
def digitsVal (l : List Char) : Nat :=
  l.foldl (fun a c => a * 10 + (c.toNat - '0'.toNat)) 0

/-- Fractional part `.ddd` of a JSON number, when present. -/
def parseFracPart : List Char → Option (List Char × List Char)
  | '.' :: r =>
    match takeDigits r with
    | ([], _) => none
    | (fs, rr) => some (fs, rr)
  | l => some ([], l)

/-- Exponent part of a JSON number: `some (some e, rest)` when an exponent
is present. -/
def parseExpPart : List Char → Option (Option Int × List Char)
  | c :: r =>
    if c = 'e' ∨ c = 'E' then
      let p : Int × List Char :=
        match r with
        | '+' :: rr => (1, rr)
        | '-' :: rr => (-1, rr)
        | _ => (1, r)
      match takeDigits p.2 with
      | ([], _) => none
      | (es, rr) => some (some (p.1 * (digitsVal es : Int)), rr)
    else some (none, c :: r)
  | [] => some (none, [])

/-- A JSON number: optional sign, integer part without leading zeros,
optional fraction and exponent.  Returns the value, whether it is an
integer literal, and the rest of the input. -/
def parseJsonNum (l : List Char) : Option ((ℚ × Bool) × List Char) :=
  let p : Bool × List Char :=
    match l with
    | '-' :: r => (true, r)
    | _ => (false, l)
  match takeDigits p.2 with
  | ([], _) => none
  | (ds, r1) =>
    if 1 < ds.length ∧ ds.head? = some '0' then none
    else
      match parseFracPart r1 with
      | none => none
      | some (fs, r2) =>
        match parseExpPart r2 with
        | none => none
        | some (eo, r3) =>
          let mant : ℚ := (digitsVal ds : ℚ) + (digitsVal fs : ℚ) / ((10 : ℚ) ^ fs.length)
          let e : Int := eo.getD 0
          let mag : ℚ := if 0 ≤ e then mant * 10 ^ e.toNat else mant / 10 ^ (-e).toNat
          some ((if p.1 then -mag else mag, fs.isEmpty && eo.isNone), r3)

mutual

/-- One JSON value, by fuel-bounded recursive descent. -/
def parseJsonVal : Nat → List Char → Option (Json × List Char)
  | 0, _ => none
  | fuel + 1, l =>
    match skipWsJson l with
    | 't' :: 'r' :: 'u' :: 'e' :: r => some (.jbool true, r)
    | 'f' :: 'a' :: 'l' :: 's' :: 'e' :: r => some (.jbool false, r)
    | 'n' :: 'u' :: 'l' :: 'l' :: r => some (.jnull, r)
    | '"' :: r => (parseStrAux r []).map (fun p => (.jstr p.1, p.2))
    | '[' :: r =>
      match skipWsJson r with
      | ']' :: rr => some (.jarr [], rr)
      | r2 => parseArrItems fuel r2 []
    | '{' :: r =>
      match skipWsJson r with
      | '}' :: rr => some (.jobj [], rr)
      | r2 => parseObjItems fuel r2 []
    | l2 => (parseJsonNum l2).map (fun p => (.jnum p.1.1 p.1.2, p.2))

/-- Comma-separated array items up to the closing bracket. -/
def parseArrItems : Nat → List Char → List Json → Option (Json × List Char)
  | 0, _, _ => none
  | fuel + 1, l, acc =>
    match parseJsonVal fuel l with
    | none => none
    | some (v, r) =>
      match skipWsJson r with
      | ',' :: rr => parseArrItems fuel rr (v :: acc)
      | ']' :: rr => some (.jarr (v :: acc).reverse, rr)
      | _ => none

/-- Comma-separated object members up to the closing brace (duplicate keys:
last value wins, as in Python). -/
def parseObjItems : Nat → List Char → List (String × Json) → Option (Json × List Char)
  | 0, _, _ => none
  | fuel + 1, l, acc =>
    match skipWsJson l with
    | '"' :: r =>
      match parseStrAux r [] with
      | none => none
      | some (k, r1) =>
        match skipWsJson r1 with
        | ':' :: r2 =>
          match parseJsonVal fuel r2 with
          | none => none
          | some (v, r3) =>
            match skipWsJson r3 with
            | ',' :: rr => parseObjItems fuel rr (objInsert acc k v)
            | '}' :: rr => some (.jobj (objInsert acc k v), rr)
            | _ => none
        | _ => none
    | _ => none

end

/-- Python `json.loads`: one JSON document with nothing but whitespace
around it; `none` models a raised `JSONDecodeError`. -/
def jsonLoads (s : String) : Option Json :=
  match parseJsonVal (2 * s.length + 2) s.data with
  | some (v, r) => if (skipWsJson r).isEmpty then some v else none
  | none => none

/-! ## Regular-expression extraction used by the JSON fallback -/

/-- Index of the first occurrence of `pat` in `l` (first position where
`pat` is a prefix of the rest). -/
def seqSearchAux (pat : List Char) : List Char → Nat → Option Nat
  | [], i => if pat.isEmpty then some i else none
  | c :: rest, i =>
    if pat.isPrefixOf (c :: rest) then some i
    else seqSearchAux pat rest (i + 1)

/-- First occurrence of a character sequence. -/
def seqSearch (pat l : List Char) : Option Nat :=
  seqSearchAux pat l 0

/-- Python `needle in hay` for strings (substring test). -/
def containsSubstr (needle hay : String) : Bool :=
  (seqSearch needle.data hay.data).isSome

/-- Index of the first occurrence of a character. -/
def firstIdxOfChar (c : Char) : List Char → Option Nat
  | [] => none
  | x :: r => if x = c then some 0 else (firstIdxOfChar c r).map (· + 1)

/-- Index of the last occurrence of a character. -/
def lastIdxOfChar (c : Char) (l : List Char) : Option Nat :=
  (firstIdxOfChar c l.reverse).map (fun i => l.length - 1 - i)

/-- The group captured by `re.search(r"```(?:json)?\s*([\s\S]*?)\s*```", s)`:
the text between the first code fence (after an optional `json` tag and
leading whitespace) and the next fence, with trailing whitespace removed;
`none` when no fenced block exists. -/
def extractFenced (s : String) : Option String :=
  match seqSearch ['`', '`', '`'] s.data with
  | none => none
  | some i =>
    let after := s.data.drop (i + 3)
    let after2 := if ['j', 's', 'o', 'n'].isPrefixOf after then after.drop 4 else after
    let body := after2.dropWhile pyIsSpace
    match seqSearch ['`', '`', '`'] body with
    | none => none
    | some j => some ⟨((body.take j).reverse.dropWhile pyIsSpace).reverse⟩

/-- The group captured by `re.search(r"(\x7b[\s\S]*\x7d)", s)`: from the
first opening brace that precedes the last closing brace, through that
closing brace; `none` when no such pair exists. -/
def bareJsonObject (s : String) : Option String :=
  match lastIdxOfChar '}' s.data with
  | none => none
  | some j =>
    match firstIdxOfChar '{' (s.data.take j) with
    | none => none
    | some i => some ⟨(s.data.drop i).take (j - i + 1)⟩

/-- The `json_str` selected by `batch_annotate_clusters`: the fenced block
if its group is non-empty (Python truthiness), else the bare-object match;
`none` when neither regex yields usable text. -/
def extractJsonStr (s : String) : Option String :=
  match extractFenced s with
  | some g => if g = "" then bareJsonObject s else some g
  | none => bareJsonObject s

/-! ## Python operations on decoded JSON values -/

/-- Python `k in x` for a string `k` and a decoded JSON value `x`:
key test on a dict, `==`-membership on a list (a string equals no non-string
there), substring test on a string; `TypeError` (modelled as `.error`)
otherwise. -/
def pyContainsStr (k : String) : Json → Except Unit Bool
  | .jobj kvs => .ok (kvs.any (fun p => p.1 = k))
  | .jarr xs =>
    .ok (xs.any (fun j =>
      match j with
      | .jstr s => s = k
      | _ => false))
  | .jstr s => .ok (containsSubstr k s)
  | _ => .error ()

/-- Python `x[k]` for a string `k`: dict lookup (`KeyError`/`TypeError`
modelled as `.error`). -/
def pyIndexStr (k : String) : Json → Except Unit Json
  | .jobj kvs =>
    match kvs.find? (fun p => p.1 = k) with
    | some p => .ok p.2
    | none => .error ()
  | _ => .error ()

/-- Decimal digits of the fractional part of a rational in `[0,1)`. -/
def fracDigitsAux : Nat → ℚ → String
  | 0, _ => ""
  | n + 1, q =>
    if q = 0 then ""
    else
      let d := (q * 10).floor
      toString d ++ fracDigitsAux n (q * 10 - (d : ℚ))

/-- String rendering of a non-integer JSON number (an approximation of
Python's float `str`; floats are outside the model). -/
def pyFloatStr (q : ℚ) : String :=
  let sign := if q < 0 then "-" else ""
  let a := |q|
  let fr := a - (a.floor : ℚ)
  sign ++ toString a.floor ++ "." ++ (if fr = 0 then "0" else fracDigitsAux 17 fr)

mutual

/-- Python `repr` of a decoded JSON value (approximate for containers and
quoted strings; exact for the personally relevant scalars). -/
def pyReprJson : Json → String
  | .jnull => "None"
  | .jbool b => if b then "True" else "False"
  | .jnum q isInt => if isInt then toString q.num else pyFloatStr q
  | .jstr s => "'" ++ s ++ "'"
  | .jarr xs => "[" ++ pyReprList xs ++ "]"
  | .jobj kvs => "\x7b" ++ pyReprKvs kvs ++ "\x7d"

/-- Comma-joined reprs of list elements. -/
def pyReprList : List Json → String
  | [] => ""
  | [x] => pyReprJson x
  | x :: y :: rest => pyReprJson x ++ ", " ++ pyReprList (y :: rest)

/-- Comma-joined reprs of dict members. -/
def pyReprKvs : List (String × Json) → String
  | [] => ""
  | [(k, v)] => "'" ++ k ++ "': " ++ pyReprJson v
  | (k, v) :: m :: rest => "'" ++ k ++ "': " ++ pyReprJson v ++ ", " ++ pyReprKvs (m :: rest)

end

/-- Python `str` of a decoded JSON value. -/
def pyStrJson : Json → String
  | .jstr s => s
  | j => pyReprJson j

/-! ## The three batch-result parsing strategies (`batch_annotate_clusters`,
lines 281–402 of `annotate.py`) -/

/-- State of the `Set N:` / `Cluster N:` line scan. -/
structure LineScanState where
  resultSets : List (List (String × Json))
  currentSet : Option Int
  current : List (String × Json)

/-- One iteration of the line-scanning loop. -/
def lineScanStep (st : LineScanState) (line0 : String) : LineScanState :=
  let line := pyStrip line0
  if pyStartsWith line "Set " then
    let st1 :=
      if st.currentSet.isSome && !st.current.isEmpty then
        { st with resultSets := st.resultSets ++ [st.current], current := [] }
      else st
    let newSet : Int :=
      match (pySplitWs line).get? 1 with
      | none => (st1.resultSets.length : Int)
      | some tok =>
        match pyParseInt (pyRstripChar ':' tok) with
        | some n => n - 1
        | none => (st1.resultSets.length : Int)
    { st1 with currentSet := some newSet }
  else if pyStartsWith line "Cluster " then
    let parts := pySplitColonOnce line
    match (pySplitWs parts.1).get? 1 with
    | none => st
    | some cnum =>
      let ann :=
        match parts.2 with
        | some rest => pyStrip rest
        | none => ""
      if st.currentSet.isSome then
        { st with current := objInsert st.current cnum (.jstr ann) }
      else st
  else st

/-- First strategy: scan the filtered lines for `Set N:` headers and
`Cluster N: annotation` entries, appending a finished set whenever a new
header (or the end of input) is reached with a non-empty current set. -/
def lineScan (filtered : List String) : List (List (String × Json)) :=
  let fin := filtered.foldl lineScanStep ⟨[], none, []⟩
  if fin.currentSet.isSome && !fin.current.isEmpty then fin.resultSets ++ [fin.current]
  else fin.resultSets

/-- Inner loop of the `"sets"` shape: collect `id`/`cell_type` members of
one set's cluster list; `.error` models an uncaught-inside `TypeError`. -/
def clustersLoop : List Json → List (String × Json) → Except Unit (List (String × Json))
  | [], acc => .ok acc
  | c :: rest, acc =>
    match pyContainsStr "id" c with
    | .error _ => .error ()
    | .ok false => clustersLoop rest acc
    | .ok true =>
      match pyContainsStr "cell_type" c with
      | .error _ => .error ()
      | .ok false => clustersLoop rest acc
      | .ok true =>
        match pyIndexStr "id" c, pyIndexStr "cell_type" c with
        | .ok idv, .ok ctv => clustersLoop rest (objInsert acc (pyStrJson idv) ctv)
        | _, _ => .error ()

/-- The `"sets"` shape of the JSON response.  An exception inside the loop
is caught by the surrounding handler, keeping the sets appended so far. -/
def setsBranch : List Json → List (List (String × Json)) → List (List (String × Json))
  | [], acc => acc
  | sd :: rest, acc =>
    match pyContainsStr "clusters" sd with
    | .error _ => acc
    | .ok false => setsBranch rest acc
    | .ok true =>
      match pyIndexStr "clusters" sd with
      | .error _ => acc
      | .ok (.jarr cl) =>
        match clustersLoop cl [] with
        | .error _ => acc
        | .ok d => setsBranch rest (acc ++ [d])
      | .ok _ => setsBranch rest acc

/-- A hashable Python dict key arising from an annotation's `"set"` value
(`True`/`1`/`1.0` coincide, as in Python). -/
inductive SetKey where
  | num (q : ℚ)
  | str (s : String)
  | null
  deriving DecidableEq

/-- Conversion of a decoded JSON value to a dict key; `none` models the
`TypeError` for unhashable lists/dicts. -/
def toSetKey : Json → Option SetKey
  | .jnull => some .null
  | .jbool b => some (.num (if b then 1 else 0))
  | .jnum q _ => some (.num q)
  | .jstr s => some (.str s)
  | _ => none

/-- Lookup in the `set_groups` dict. -/
def groupsFind (gs : List (SetKey × List (String × Json))) (k : SetKey) :
    Option (List (String × Json)) :=
  (gs.find? (fun p => p.1 = k)).map (·.2)

/-- Update in the `set_groups` dict. -/
def groupsSet (gs : List (SetKey × List (String × Json))) (k : SetKey)
    (d : List (String × Json)) : List (SetKey × List (String × Json)) :=
  if gs.any (fun p => p.1 = k) then
    gs.map (fun p => if p.1 = k then (k, d) else p)
  else gs ++ [(k, d)]

/-- Grouping loop of the `"annotations"` shape; `.error` models a raised
`TypeError` (which discards the whole branch, nothing appended yet). -/
def annLoop : List Json → List (SetKey × List (String × Json)) →
    Except Unit (List (SetKey × List (String × Json)))
  | [], gs => .ok gs
  | a :: rest, gs =>
    match pyContainsStr "set" a with
    | .error _ => .error ()
    | .ok false => annLoop rest gs
    | .ok true =>
      match pyContainsStr "cluster" a with
      | .error _ => .error ()
      | .ok false => annLoop rest gs
      | .ok true =>
        match pyContainsStr "cell_type" a with
        | .error _ => .error ()
        | .ok false => annLoop rest gs
        | .ok true =>
          match pyIndexStr "set" a, pyIndexStr "cluster" a, pyIndexStr "cell_type" a with
          | .ok sv, .ok cv, .ok ctv =>
            match toSetKey sv with
            | none => .error ()
            | some k =>
              let d := (groupsFind gs k).getD []
              annLoop rest (groupsSet gs k (objInsert d (pyStrJson cv) ctv))
          | _, _, _ => .error ()

/-- Insertion into a sorted list under a boolean order. -/
def insertSortedBy (le : SetKey → SetKey → Bool) (x : SetKey) :
    List SetKey → List SetKey
  | [] => [x]
  | y :: rest => if le x y then x :: y :: rest else y :: insertSortedBy le x rest

/-- Insertion sort under a boolean order. -/
def sortKeysBy (le : SetKey → SetKey → Bool) : List SetKey → List SetKey
  | [] => []
  | x :: rest => insertSortedBy le x (sortKeysBy le rest)

/-- Numeric payload of a key (0 for the impossible cases). -/
def keyRat : SetKey → ℚ
  | .num q => q
  | _ => 0

/-- String payload of a key. -/
def keyStr : SetKey → String
  | .str s => s
  | _ => ""

/-- Python `sorted(set_groups.keys())`: comparison-free for at most one key,
ascending for all-numeric or all-string keys, `TypeError` (`.error`) for any
other combination. -/
def sortSetKeys (ks : List SetKey) : Except Unit (List SetKey) :=
  if ks.length ≤ 1 then .ok ks
  else if ks.all (fun k => match k with | .num _ => true | _ => false) then
    .ok (sortKeysBy (fun a b => keyRat a ≤ keyRat b) ks)
  else if ks.all (fun k => match k with | .str _ => true | _ => false) then
    .ok (sortKeysBy (fun a b => keyStr a ≤ keyStr b) ks)
  else .error ()

/-- The `"annotations"` shape: group by the `set` value, then append the
groups in sorted key order; an exception anywhere yields no sets. -/
def annotationsBranch (anns : List Json) : List (List (String × Json)) :=
  match annLoop anns [] with
  | .error _ => []
  | .ok gs =>
    match sortSetKeys (gs.map (·.1)) with
    | .error _ => []
    | .ok ks => ks.filterMap (fun k => groupsFind gs k)

/-- The `elif "annotations" in data and isinstance(..., list)` arm. -/
def elifAnnotations (data : Json) : List (List (String × Json)) :=
  match pyContainsStr "annotations" data with
  | .error _ => []
  | .ok false => []
  | .ok true =>
    match pyIndexStr "annotations" data with
    | .error _ => []
    | .ok (.jarr anns) => annotationsBranch anns
    | .ok _ => []

/-- Shape dispatch on the decoded JSON document. -/
def shapeExtract (data : Json) : List (List (String × Json)) :=
  match pyContainsStr "sets" data with
  | .error _ => []
  | .ok true =>
    match pyIndexStr "sets" data with
    | .error _ => []
    | .ok (.jarr sets) => setsBranch sets []
    | .ok _ => elifAnnotations data
  | .ok false => elifAnnotations data

/-- Second strategy: extract JSON text from the joined response, decode it,
and read either recognized shape; every failure is caught and yields the
sets appended before it (usually none). -/
def jsonStrategy (fullText : String) : List (List (String × Json)) :=
  match extractJsonStr fullText with
  | none => []
  | some js =>
    match jsonLoads js with
    | none => []
    | some data => shapeExtract data

/-- The complete result parsing of `batch_annotate_clusters`: filter blank
lines, run the line scan, fall back to the JSON strategies when it produced
no sets, and finally fall back to one placeholder dictionary per input
cluster set. -/
def parseBatchResults (results : List String) (clustersList : List (List String)) :
    List (List (String × Json)) :=
  let filtered := results.filter (fun l => !(pyStrip l == ""))
  let lineSets := lineScan filtered
  let sets1 :=
    if lineSets.isEmpty then jsonStrategy (strJoin "\n" filtered)
    else lineSets
  if sets1.isEmpty then
    clustersList.enum.map (fun p =>
      p.2.foldl
        (fun d c =>
          objInsert d c (.jstr ("Set " ++ toString (p.1 + 1) ++ " results not properly parsed")))
        [])
  else sets1

/-! ## Orchestration layer (`annotate.py`)

Provider adapters and the on-disk cache are external collaborators: a
`World` supplies the cache contents, the credential environment and the
outcome of each provider call.  A `Trace` records, besides the returned
value or raised error, the cache key that the run computed (when caching
was enabled and reached), how many provider calls were issued, and the
cache writes performed. -/

/-- A value a provider function returns or the cache yields: a list of
lines or a plain string. -/
inductive RawResult where
  | lines (xs : List String)
  | text (s : String)
  deriving DecidableEq

/-- Python truthiness of such a value (`if cached_results:`). -/
def RawResult.truthy : RawResult → Bool
  | .lines xs => !xs.isEmpty
  | .text s => !(s == "")

/-- Join-to-string conversion used by `get_model_response`
(`"\n".join(result)` for a list, identity otherwise). -/
def rawToStr : RawResult → String
  | .lines xs => strJoin "\n" xs
  | .text s => s

/-- Iterating a provider result with `for line in results`: the lines of a
list, the characters of a string. -/
def rawIterLines : RawResult → List String
  | .lines xs => xs
  | .text s => s.data.map (fun c => ⟨[c]⟩)

/-- Slicing `cached_results[start:stop]` on either value shape. -/
def pySliceRaw (raw : RawResult) (start stop : Nat) : RawResult :=
  match raw with
  | .lines xs => .lines ((xs.drop start).take (stop - start))
  | .text s => .text ⟨(s.data.drop start).take (stop - start)⟩

/-- External collaborators of one annotation run. -/
structure World where
  cache : List ((String × String × String) × RawResult)
  apiKeyEnv : String → Option String
  call : String → String → String → String → Except String RawResult

/-- Cache lookup by key. -/
def cacheGet (cache : List ((String × String × String) × RawResult))
    (k : String × String × String) : Option RawResult :=
  (cache.find? (fun p => p.1 = k)).map (·.2)

/-- The keys of the `PROVIDER_FUNCTIONS` table in `annotate.py` (the values
are the provider adapters, modelled by `World.call`). -/
def PROVIDER_FUNCTIONS : List String :=
  ["openai", "anthropic", "deepseek", "gemini", "qwen",
   "stepfun", "zhipu", "minimax", "grok", "openrouter"]

/-- The `default_models` table of `get_default_model`. -/
def default_models : List (String × String) :=
  [("openai", "gpt-4.1"),
   ("anthropic", "claude-3-7-sonnet-20250219"),
   ("deepseek", "deepseek-chat"),
   ("gemini", "gemini-2.5-pro-preview-03-25"),
   ("qwen", "qwen-max-2025-01-25"),
   ("stepfun", "step-2-16k"),
   ("zhipu", "glm-4"),
   ("minimax", "MiniMax-Text-01"),
   ("grok", "grok-3-beta"),
   ("openrouter", "openai/gpt-4.1")]

/-- `get_default_model(provider)`: table lookup on the lowercased name with
the literal `"unknown"` as default. -/
def get_default_model (provider : String) : String :=
  ((default_models.find? (fun p => p.1 = pyLower provider)).map (·.2)).getD "unknown"

/-- Python truthiness filter on an optional string (`if not model:` treats
`None` and `""` alike). -/
def optTruthyStr : Option String → Option String
  | some s => if s = "" then none else some s
  | none => none

/-- The effective model id: `if not model: model = get_default_model(provider)`. -/
def effModel (provider : String) (model : Option String) : String :=
  match optTruthyStr model with
  | some mm => mm
  | none => get_default_model provider

/-- Modelled from the spec: `utils.create_cache_key` is absent from the
sources; per the spec the fingerprint is a deterministic hash of
(prompt, model, provider), modelled as the triple itself. -/
def create_cache_key (prompt model provider : String) : String × String × String :=
  (prompt, model, provider)

/-- Modelled from the spec: `utils.load_api_key` is absent from the
sources; it obtains the provider's credential from the
environment/configuration, modelled by the world's `apiKeyEnv` table. -/
def load_api_key (w : World) (provider : String) : Option String :=
  w.apiKeyEnv provider

/-- The credential resolution at the top of each entry point: the explicit
argument when truthy, else `load_api_key`; `none` means the
`"API key not found"` `ValueError` is raised. -/
def resolveApiKey (w : World) (provider : String) (apiKey : Option String) :
    Option String :=
  (optTruthyStr apiKey).orElse (fun _ => optTruthyStr (load_api_key w provider))

/-- The `use_cache` check shared by the entry points: a truthy cached value
under the key, else nothing (a stored falsy value is not returned). -/
def cacheHit (useCache : Bool)
    (cache : List ((String × String × String) × RawResult))
    (ck : String × String × String) : Option RawResult :=
  if useCache then
    match cacheGet cache ck with
    | some v => if v.truthy then some v else none
    | none => none
  else none

/-- Modelled from the spec: `utils.format_results` is absent from the
sources; per the spec it assembles the ClusterId → annotation mapping from
the raw response, modelled by pairing each cluster, in order, with the
corresponding response line (empty when absent). -/
def format_results (raw : RawResult) (clusters : List String) :
    List (String × String) :=
  let ls := match raw with | .lines xs => xs | .text s => pySplitNl s
  clusters.enum.map (fun p => (p.2, (ls.get? p.1).getD ""))

/-- Modelled from the spec: `prompts.create_prompt` is absent from the
sources; prompt templating is out of scope and specified only as a
deterministic function of the marker genes, species, tissue, context and
template, modelled by a canonical rendering of those arguments. -/
def create_prompt (marker : List (String × List String)) (species : String)
    (tissue ctx tmpl : Option String) : String :=
  strJoin "\n"
    ([species, tissue.getD "", ctx.getD "", tmpl.getD ""] ++
      marker.map (fun p => p.1 ++ ": " ++ strJoin ", " p.2))

/-- Modelled from the spec: `prompts.create_batch_prompt` is absent from
the sources; modelled like `create_prompt` over the list of marker sets. -/
def create_batch_prompt (markerList : List (List (String × List String)))
    (species : String) (tissue ctx tmpl : Option String) : String :=
  strJoin "\n\n"
    (create_prompt [] species tissue ctx tmpl ::
      markerList.map (fun mg => create_prompt mg species none none none))

/-- Errors `annotate.py` raises: an explicit `ValueError`, or a re-raised
provider exception. -/
inductive AnnError where
  | valueError (msg : String)
  | providerError (msg : String)
  deriving DecidableEq

/-- Observable trace of one call into `annotate.py`. -/
structure Trace (α : Type) where
  result : Except AnnError α
  key : Option (String × String × String)
  calls : Nat
  writes : List ((String × String × String) × RawResult)

/-- The `tissue` argument of `batch_annotate_clusters` (`Optional[Union[str,
list[str]]]`). -/
inductive TissueArg where
  | noneArg
  | one (s : String)
  | many (l : List String)

/-- `tissue[0] if isinstance(tissue, list) and len(tissue) > 0 else tissue`
(an empty list is falsy and reaches the template like `None`). -/
def batchTissue : TissueArg → Option String
  | .noneArg => none
  | .one s => some s
  | .many [] => none
  | .many (s :: _) => some s

/-- `annotate_clusters` (dict input; the DataFrame conversion branch is not
reachable for the modelled input type).  Logging is omitted. -/
def annotate_clusters (w : World) (marker : List (String × List String))
    (species provider : String) (model apiKey : Option String)
    (tissue ctx tmpl : Option String) (useCache : Bool) :
    Trace (List (String × String)) :=
  let clusters := marker.map (·.1)
  let m := effModel provider model
  match resolveApiKey w provider apiKey with
  | none =>
    { result := .error (.valueError ("API key not found for provider: " ++ provider))
      key := none, calls := 0, writes := [] }
  | some k =>
    let prompt := create_prompt marker species tissue ctx tmpl
    let ck := create_cache_key prompt m provider
    let cachedHit := cacheHit useCache w.cache ck
    match cachedHit with
    | some v =>
      { result := .ok (format_results v clusters)
        key := some ck, calls := 0, writes := [] }
    | none =>
      if PROVIDER_FUNCTIONS.contains (pyLower provider) then
        match w.call (pyLower provider) prompt m k with
        | .ok r =>
          { result := .ok (format_results r clusters)
            key := if useCache then some ck else none
            calls := 1
            writes := if useCache then [(ck, r)] else [] }
        | .error e =>
          { result := .error (.providerError e)
            key := if useCache then some ck else none
            calls := 1, writes := [] }
      else
        { result := .error (.valueError ("Unknown provider: " ++ provider))
          key := if useCache then some ck else none
          calls := 0, writes := [] }

/-- The cached-results slicing loop of `batch_annotate_clusters`. -/
def batchCachedAux : RawResult → Nat → List (List String) →
    List (List (String × String))
  | _, _, [] => []
  | cached, start, cl :: rest =>
    format_results (pySliceRaw cached start (start + cl.length)) cl ::
      batchCachedAux cached (start + cl.length) rest

/-- `batch_annotate_clusters` (dict inputs; logging omitted).  Cached
results are sliced per cluster set; fresh results go through the parsing
chain `parseBatchResults`. -/
def batch_annotate_clusters (w : World)
    (markerList : List (List (String × List String)))
    (species provider : String) (model apiKey : Option String)
    (tissue : TissueArg) (ctx tmpl : Option String) (useCache : Bool) :
    Trace (List (List (String × Json))) :=
  let clustersList := markerList.map (fun mg => mg.map (·.1))
  let m := effModel provider model
  match resolveApiKey w provider apiKey with
  | none =>
    { result := .error (.valueError ("API key not found for provider: " ++ provider))
      key := none, calls := 0, writes := [] }
  | some k =>
    let prompt := create_batch_prompt markerList species (batchTissue tissue) ctx tmpl
    let ck := create_cache_key prompt m provider
    let cachedHit := cacheHit useCache w.cache ck
    match cachedHit with
    | some v =>
      { result := .ok ((batchCachedAux v 0 clustersList).map
          (fun d => d.map (fun p => (p.1, Json.jstr p.2))))
        key := some ck, calls := 0, writes := [] }
    | none =>
      if PROVIDER_FUNCTIONS.contains (pyLower provider) then
        match w.call (pyLower provider) prompt m k with
        | .ok r =>
          { result := .ok (parseBatchResults (rawIterLines r) clustersList)
            key := if useCache then some ck else none
            calls := 1
            writes := if useCache then [(ck, r)] else [] }
        | .error e =>
          { result := .error (.providerError e)
            key := if useCache then some ck else none
            calls := 1, writes := [] }
      else
        { result := .error (.valueError ("Unknown provider: " ++ provider))
          key := if useCache then some ck else none
          calls := 0, writes := [] }

/-- `get_model_response` (logging omitted).  Note the leading
`if not provider` guard, the cache check before the provider-table check,
and the list-to-string join on both return paths. -/
def get_model_response (w : World) (prompt provider : String)
    (model apiKey : Option String) (useCache : Bool) : Trace String :=
  if provider = "" then
    { result := .error (.valueError "Provider name is required")
      key := none, calls := 0, writes := [] }
  else
    let m := effModel provider model
    match resolveApiKey w provider apiKey with
    | none =>
      { result := .error (.valueError ("API key not found for provider: " ++ provider))
        key := none, calls := 0, writes := [] }
    | some k =>
      let ck := create_cache_key prompt m provider
      let cachedHit := cacheHit useCache w.cache ck
      match cachedHit with
      | some v =>
        { result := .ok (rawToStr v), key := some ck, calls := 0, writes := [] }
      | none =>
        if PROVIDER_FUNCTIONS.contains (pyLower provider) then
          match w.call (pyLower provider) prompt m k with
          | .ok r =>
            { result := .ok (rawToStr r)
              key := if useCache then some ck else none
              calls := 1
              writes := if useCache then [(ck, r)] else [] }
          | .error e =>
            { result := .error (.providerError e)
              key := if useCache then some ck else none
              calls := 1, writes := [] }
        else
          { result := .error (.valueError ("Unknown provider: " ++ provider))
            key := if useCache then some ck else none
            calls := 0, writes := [] }

/-! ## Lemmas about the OpenRouter retry loop -/

theorem retryAux_attempts_le (env : Nat → HttpOutcome) (m d : Nat) :
    ∀ fuel a, (retryAux env m d a fuel).2.1 ≤ fuel := by
  intro fuel
  induction fuel with
  | zero => intro a; simp [retryAux]
  | succ f ih =>
    intro a
    simp only [retryAux]
    cases henv : env a with
    | success c => simp
    | rateLimited =>
      by_cases hlt : a < m - 1
      · have := ih (a + 1)
        simp only [if_pos hlt]
        omega
      · simp [if_neg hlt]
    | failure =>
      by_cases hlt : a < m - 1
      · have := ih (a + 1)
        simp only [if_pos hlt]
        omega
      · simp [if_neg hlt]

theorem retryAux_attempts_pos (env : Nat → HttpOutcome) (m d : Nat)
    (fuel a : Nat) (hf : 1 ≤ fuel) : 1 ≤ (retryAux env m d a fuel).2.1 := by
  cases fuel with
  | zero => omega
  | succ f =>
    simp only [retryAux]
    cases henv : env a with
    | success c => simp
    | rateLimited =>
      by_cases hlt : a < m - 1
      · simp only [if_pos hlt]; omega
      · simp [if_neg hlt]
    | failure =>
      by_cases hlt : a < m - 1
      · simp only [if_pos hlt]; omega
      · simp [if_neg hlt]

theorem retryAux_waits (env : Nat → HttpOutcome) (m d : Nat) :
    ∀ fuel a, m ≤ a + fuel →
      (retryAux env m d a fuel).2.2 =
        (List.range ((retryAux env m d a fuel).2.1 - 1)).map
          (fun i => d * 2 ^ (a + i)) := by
  intro fuel
  induction fuel with
  | zero => intro a _; simp [retryAux]
  | succ f ih =>
    intro a hm
    simp only [retryAux]
    cases henv : env a with
    | success c => simp
    | rateLimited =>
      by_cases hlt : a < m - 1
      · have hm1 : m ≤ (a + 1) + f := by omega
        have hf1 : 1 ≤ f := by omega
        have hpos := retryAux_attempts_pos env m d f (a + 1) hf1
        have hih := ih (a + 1) hm1
        simp only [if_pos hlt]
        obtain ⟨n, hn⟩ : ∃ n, (retryAux env m d (a + 1) f).2.1 = n + 1 :=
          ⟨(retryAux env m d (a + 1) f).2.1 - 1, by omega⟩
        show d * 2 ^ a :: (retryAux env m d (a + 1) f).2.2 =
          (List.range ((retryAux env m d (a + 1) f).2.1 + 1 - 1)).map
            (fun i => d * 2 ^ (a + i))
        rw [hih, hn]
        simp only [Nat.add_sub_cancel, List.range_succ_eq_map, List.map_cons,
          List.map_map]
        refine List.cons_eq_cons.mpr ⟨by simp, ?_⟩
        apply List.map_congr_left
        intro i hi
        simp only [Function.comp_apply]
        congr 1
        congr 1
        omega
      · simp [if_neg hlt]
    | failure =>
      by_cases hlt : a < m - 1
      · have hm1 : m ≤ (a + 1) + f := by omega
        have hf1 : 1 ≤ f := by omega
        have hpos := retryAux_attempts_pos env m d f (a + 1) hf1
        have hih := ih (a + 1) hm1
        simp only [if_pos hlt]
        obtain ⟨n, hn⟩ : ∃ n, (retryAux env m d (a + 1) f).2.1 = n + 1 :=
          ⟨(retryAux env m d (a + 1) f).2.1 - 1, by omega⟩
        show d * 2 ^ a :: (retryAux env m d (a + 1) f).2.2 =
          (List.range ((retryAux env m d (a + 1) f).2.1 + 1 - 1)).map
            (fun i => d * 2 ^ (a + i))
        rw [hih, hn]
        simp only [Nat.add_sub_cancel, List.range_succ_eq_map, List.map_cons,
          List.map_map]
        refine List.cons_eq_cons.mpr ⟨by simp, ?_⟩
        apply List.map_congr_left
        intro i hi
        simp only [Function.comp_apply]
        congr 1
        congr 1
        omega
      · simp [if_neg hlt]

theorem retryAux_allFail (env : Nat → HttpOutcome) (m d : Nat) :
    ∀ fuel a, (∀ i, a ≤ i → i < a + fuel → (env i).isSuccess = false) →
      (retryAux env m d a fuel).1 = .error () := by
  intro fuel
  induction fuel with
  | zero => intro a _; simp [retryAux]
  | succ f ih =>
    intro a hall
    have ha : (env a).isSuccess = false := hall a (le_refl a) (by omega)
    simp only [retryAux]
    cases henv : env a with
    | success c => rw [henv] at ha; simp [HttpOutcome.isSuccess] at ha
    | rateLimited =>
      by_cases hlt : a < m - 1
      · have := ih (a + 1) (fun i h1 h2 => hall i (by omega) (by omega))
        simp only [if_pos hlt]
        simpa using this
      · simp [if_neg hlt]
    | failure =>
      by_cases hlt : a < m - 1
      · have := ih (a + 1) (fun i h1 h2 => hall i (by omega) (by omega))
        simp only [if_pos hlt]
        simpa using this
      · simp [if_neg hlt]

/-- Any successful `process_openrouter` output is some raw response,
stripped, split on newlines, with each line's trailing commas removed. -/
theorem process_openrouter_ok_shape (prompt model apiKey : String)
    (env : Nat → HttpOutcome) (out : List String)
    (h : (process_openrouter prompt model apiKey env).result = .ok out) :
    ∃ content, out = (pySplitNl (pyStrip content)).map (pyRstripChar ',') := by
  by_cases hk : apiKey = ""
  · simp [process_openrouter, hk] at h
  · simp only [process_openrouter, if_neg hk] at h
    cases h1 : (openrouterRetry env 3 2).1 with
    | ok content =>
      simp only [h1] at h
      exact ⟨content, by simpa using h.symm⟩
    | error e => simp [h1] at h

theorem head?_dropWhile_ne (c : Char) :
    ∀ l : List Char, (l.dropWhile (· = c)).head? ≠ some c := by
  intro l
  induction l with
  | nil => simp
  | cons x r ih =>
    by_cases h : x = c
    · simpa [List.dropWhile_cons, h] using ih
    · simp [List.dropWhile_cons, h]

theorem pyRstripChar_no_trailing (c : Char) (s : String) :
    (pyRstripChar c s).data.getLast? ≠ some c := by
  simp only [pyRstripChar, List.getLast?_reverse]
  exact head?_dropWhile_ne c _

/-! ## Claims C4, C6, C7 -/

/-- C4: for every prompt chunk, `process_openrouter` performs at most
`max_retries = 3` HTTP attempts, sleeping `retry_delay * 2 ^ attempt`
seconds (2, then 4) between failed attempts, and when every attempt fails
it re-raises the error instead of retrying further. -/
theorem openrouter_retry_bounded (prompt model apiKey : String)
    (env : Nat → HttpOutcome) (hk : apiKey ≠ "") :
    (process_openrouter prompt model apiKey env).attempts ≤ 3 ∧
    (process_openrouter prompt model apiKey env).waits =
      (List.range ((process_openrouter prompt model apiKey env).attempts - 1)).map
        (fun i => 2 * 2 ^ i) ∧
    ((∀ i, i < 3 → (env i).isSuccess = false) →
      (process_openrouter prompt model apiKey env).result = .error .httpError) := by
  refine ⟨?_, ?_, ?_⟩
  · simp only [process_openrouter, if_neg hk]
    exact retryAux_attempts_le env 3 2 3 0
  · simp only [process_openrouter, if_neg hk]
    have := retryAux_waits env 3 2 3 0 (by omega)
    simpa [openrouterRetry] using this
  · intro hall
    simp only [process_openrouter, if_neg hk]
    have := retryAux_allFail env 3 2 3 0 (fun i h1 h2 => hall i (by omega))
    rw [openrouterRetry] at *
    cases h1 : (retryAux env 3 2 0 3).1 with
    | ok content => rw [h1] at this; exact absurd this (by simp)
    | error e => simp [h1]

/-- Witness for C4 at a concrete always-failing environment. -/
theorem openrouter_retry_bounded_witness :
    ("key" : String) ≠ "" ∧
    ((process_openrouter "p" "m" "key" (fun _ => .failure)).attempts ≤ 3 ∧
      (process_openrouter "p" "m" "key" (fun _ => .failure)).waits =
        (List.range ((process_openrouter "p" "m" "key" (fun _ => .failure)).attempts - 1)).map
          (fun i => 2 * 2 ^ i) ∧
      ((∀ i, i < 3 → ((fun _ => HttpOutcome.failure) i).isSuccess = false) →
        (process_openrouter "p" "m" "key" (fun _ => .failure)).result =
          .error .httpError)) :=
  ⟨by decide, openrouter_retry_bounded "p" "m" "key" (fun _ => .failure) (by decide)⟩

/-- C6: `process_openrouter` with an empty (missing) API key raises
`ValueError` immediately, before issuing any HTTP request. -/
theorem openrouter_empty_key_valueerror (prompt model : String)
    (env : Nat → HttpOutcome) :
    (process_openrouter prompt model "" env).result =
      .error (.valueError "OpenRouter API key is missing or empty") ∧
    (process_openrouter prompt model "" env).attempts = 0 := by
  constructor <;> rfl

/-- C7: no line returned by `process_openrouter` ends with a trailing
list-separator comma. -/
theorem openrouter_no_trailing_comma (prompt model apiKey : String)
    (env : Nat → HttpOutcome) (out : List String)
    (h : (process_openrouter prompt model apiKey env).result = .ok out) :
    ∀ l ∈ out, l.data.getLast? ≠ some ',' := by
  obtain ⟨content, hc⟩ := process_openrouter_ok_shape prompt model apiKey env out h
  subst hc
  intro l hl
  obtain ⟨x, _, hx⟩ := List.mem_map.mp hl
  subst hx
  exact pyRstripChar_no_trailing ',' x

/-- Witness for C7 at a concrete successful response. -/
theorem openrouter_no_trailing_comma_witness :
    (process_openrouter "p" "m" "key" (fun _ => .success "A,\nB")).result =
      .ok ["A", "B"] ∧
    ∀ l ∈ ["A", "B"], l.data.getLast? ≠ some ',' :=
  ⟨rfl, openrouter_no_trailing_comma "p" "m" "key" (fun _ => .success "A,\nB")
    ["A", "B"] rfl⟩

/-! ## Claim C9 -/

/-- C9: `get_default_model` is total and returns the literal `"unknown"`
for every provider outside its table, and `annotate_clusters` with
`model = None` and such a provider proceeds past model selection: it
computes its cache key with model `"unknown"` instead of failing there. -/
theorem get_default_model_unknown (w : World) (marker : List (String × List String))
    (species provider : String) (apiKey : Option String)
    (tissue ctx tmpl : Option String)
    (hp : default_models.find? (fun p => p.1 = pyLower provider) = none)
    (hk : resolveApiKey w provider apiKey ≠ none) :
    get_default_model provider = "unknown" ∧
    (annotate_clusters w marker species provider none apiKey tissue ctx tmpl true).key =
      some (create_cache_key (create_prompt marker species tissue ctx tmpl)
        "unknown" provider) := by
  have hm : effModel provider none = "unknown" := by
    simp [effModel, optTruthyStr, get_default_model, hp]
  refine ⟨by simp [get_default_model, hp], ?_⟩
  obtain ⟨k, hres⟩ := Option.ne_none_iff_exists'.mp hk
  simp only [annotate_clusters, hres, hm]
  split
  · simp
  · split
    · split <;> simp
    · simp

/-- Witness for C9 at the concrete provider `"doesnotexist"`. -/
theorem get_default_model_unknown_witness :
    (default_models.find? (fun p => p.1 = pyLower "doesnotexist") = none ∧
      resolveApiKey ⟨[], fun _ => none, fun _ _ _ _ => .error "no"⟩ "doesnotexist"
        (some "k") ≠ none) ∧
    (get_default_model "doesnotexist" = "unknown" ∧
      (annotate_clusters ⟨[], fun _ => none, fun _ _ _ _ => .error "no"⟩
        [("1", ["CD3"])] "human" "doesnotexist" none (some "k") none none none
        true).key =
        some (create_cache_key (create_prompt [("1", ["CD3"])] "human" none none none)
          "unknown" "doesnotexist")) :=
  ⟨⟨rfl, by decide⟩,
    get_default_model_unknown ⟨[], fun _ => none, fun _ _ _ _ => .error "no"⟩
      [("1", ["CD3"])] "human" "doesnotexist" (some "k") none none none rfl
      (by decide)⟩

/-! ## Claim C8 -/

/-- C8: all three entry points compute their cache key as
`create_cache_key` of exactly (prompt text, effective model id, provider
id); in particular two `get_model_response` calls agreeing on that triple
use the same key regardless of the world (cache contents, credential
environment, provider behaviour) and of the API-key argument. -/
theorem cache_key_depends_only_on_triple
    (w w' : World) (marker : List (String × List String))
    (markerList : List (List (String × List String)))
    (species provider prompt : String) (model apiKey apiKey' : Option String)
    (tissue ctx tmpl : Option String) (btissue : TissueArg)
    (hk : resolveApiKey w provider apiKey ≠ none)
    (hk' : resolveApiKey w' provider apiKey' ≠ none)
    (hprov : provider ≠ "") :
    (annotate_clusters w marker species provider model apiKey tissue ctx tmpl true).key =
      some (create_cache_key (create_prompt marker species tissue ctx tmpl)
        (effModel provider model) provider) ∧
    (batch_annotate_clusters w markerList species provider model apiKey btissue ctx
        tmpl true).key =
      some (create_cache_key
        (create_batch_prompt markerList species (batchTissue btissue) ctx tmpl)
        (effModel provider model) provider) ∧
    (get_model_response w prompt provider model apiKey true).key =
      some (create_cache_key prompt (effModel provider model) provider) ∧
    (get_model_response w prompt provider model apiKey true).key =
      (get_model_response w' prompt provider model apiKey' true).key := by
  obtain ⟨k, hres⟩ := Option.ne_none_iff_exists'.mp hk
  obtain ⟨k2, hres'⟩ := Option.ne_none_iff_exists'.mp hk'
  have h3 : (get_model_response w prompt provider model apiKey true).key =
      some (create_cache_key prompt (effModel provider model) provider) := by
    simp only [get_model_response, if_neg hprov, hres]
    split
    · simp
    · split
      · split <;> simp
      · simp
  have h3' : (get_model_response w' prompt provider model apiKey' true).key =
      some (create_cache_key prompt (effModel provider model) provider) := by
    simp only [get_model_response, if_neg hprov, hres']
    split
    · simp
    · split
      · split <;> simp
      · simp
  refine ⟨?_, ?_, h3, h3.trans h3'.symm⟩
  · simp only [annotate_clusters, hres]
    split
    · simp
    · split
      · split <;> simp
      · simp
  · simp only [batch_annotate_clusters, hres]
    split
    · simp
    · split
      · split <;> simp
      · simp

/-- Witness for C8: two worlds with different caches, credentials and
provider behaviour yield the same cache key for the same triple. -/
theorem cache_key_depends_only_on_triple_witness :
    (resolveApiKey ⟨[], fun _ => some "k1", fun _ _ _ _ => .error "a"⟩ "openai"
        none ≠ none ∧
      resolveApiKey ⟨[(("p", "m", "openai"), .text "v")], fun _ => none,
        fun _ _ _ _ => .ok (.text "r")⟩ "openai" (some "k2") ≠ none ∧
      ("openai" : String) ≠ "") ∧
    ((get_model_response ⟨[], fun _ => some "k1", fun _ _ _ _ => .error "a"⟩
        "p" "openai" (some "m") none true).key =
      (get_model_response ⟨[(("p", "m", "openai"), .text "v")], fun _ => none,
        fun _ _ _ _ => .ok (.text "r")⟩ "p" "openai" (some "m") (some "k2")
        true).key) :=
  ⟨⟨by decide, by decide, by decide⟩,
    (cache_key_depends_only_on_triple
      ⟨[], fun _ => some "k1", fun _ _ _ _ => .error "a"⟩
      ⟨[(("p", "m", "openai"), .text "v")], fun _ => none,
        fun _ _ _ _ => .ok (.text "r")⟩
      [] [] "s" "openai" "p" (some "m") none (some "k2") none none none .noneArg
      (by decide) (by decide) (by decide)).2.2.2⟩

/-! ## Claim C2 -/

/-- Counterexample to C2 as stated: the cache holds a value (the empty
list) under the fingerprint, yet `annotate_clusters` invokes the provider —
`if cached_results:` treats a stored falsy value as a miss. -/
theorem annotate_cached_empty_still_calls :
    cacheGet [((create_prompt [("1", ["CD3"])] "human" none none none, "m", "openai"),
        RawResult.lines [])]
      (create_cache_key (create_prompt [("1", ["CD3"])] "human" none none none)
        "m" "openai") = some (.lines []) ∧
    (annotate_clusters
      ⟨[((create_prompt [("1", ["CD3"])] "human" none none none, "m", "openai"),
          RawResult.lines [])],
        fun _ => none, fun _ _ _ _ => .ok (.lines ["X"])⟩
      [("1", ["CD3"])] "human" "openai" (some "m") (some "k") none none none
      true).calls = 1 :=
  ⟨rfl, rfl⟩

/-- C2 (amended): with `use_cache=True`, a truthy (non-empty) cached value
under the fingerprint of (prompt, model, provider) is returned formatted
with no provider call; on a miss — including a stored falsy value — a
successful provider result is saved under that same fingerprint with
exactly one provider call. -/
theorem annotate_cache_roundtrip (w : World) (marker : List (String × List String))
    (species provider : String) (model apiKey : Option String)
    (tissue ctx tmpl : Option String) (k : String)
    (hk : resolveApiKey w provider apiKey = some k) :
    (∀ v, cacheGet w.cache (create_cache_key (create_prompt marker species tissue ctx tmpl)
        (effModel provider model) provider) = some v →
      v.truthy = true →
      (annotate_clusters w marker species provider model apiKey tissue ctx tmpl
          true).result = .ok (format_results v (marker.map (·.1))) ∧
      (annotate_clusters w marker species provider model apiKey tissue ctx tmpl
          true).calls = 0) ∧
    (∀ r, (∀ v, cacheGet w.cache (create_cache_key (create_prompt marker species tissue ctx tmpl)
        (effModel provider model) provider) = some v → v.truthy = false) →
      PROVIDER_FUNCTIONS.contains (pyLower provider) = true →
      w.call (pyLower provider) (create_prompt marker species tissue ctx tmpl)
        (effModel provider model) k = .ok r →
      (annotate_clusters w marker species provider model apiKey tissue ctx tmpl
          true).writes =
        [(create_cache_key (create_prompt marker species tissue ctx tmpl)
          (effModel provider model) provider, r)] ∧
      (annotate_clusters w marker species provider model apiKey tissue ctx tmpl
          true).calls = 1) := by
  constructor
  · intro v hv htr
    have hch : cacheHit true w.cache
        (create_cache_key (create_prompt marker species tissue ctx tmpl)
          (effModel provider model) provider) = some v := by
      simp [cacheHit, hv, htr]
    simp only [annotate_clusters, hk, hch]
    exact ⟨by simp, by simp⟩
  · intro r hmiss hprov hcall
    have hch : cacheHit true w.cache
        (create_cache_key (create_prompt marker species tissue ctx tmpl)
          (effModel provider model) provider) = none := by
      unfold cacheHit
      cases hg : cacheGet w.cache
          (create_cache_key (create_prompt marker species tissue ctx tmpl)
            (effModel provider model) provider) with
      | none => simp
      | some v => simp [hmiss v hg]
    simp only [annotate_clusters, hk, hch, hprov, hcall]
    simp

/-- Witness for C2 (amended) at a concrete world with a truthy cache
entry. -/
theorem annotate_cache_roundtrip_witness :
    resolveApiKey
      ⟨[((create_prompt [("1", ["CD3"])] "human" none none none, "m", "openai"),
          RawResult.text "T cells")],
        fun _ => none, fun _ _ _ _ => .ok (.lines ["X"])⟩
      "openai" (some "k") = some "k" ∧
    ((annotate_clusters
        ⟨[((create_prompt [("1", ["CD3"])] "human" none none none, "m", "openai"),
            RawResult.text "T cells")],
          fun _ => none, fun _ _ _ _ => .ok (.lines ["X"])⟩
        [("1", ["CD3"])] "human" "openai" (some "m") (some "k") none none none
        true).result = .ok [("1", "T cells")] ∧
      (annotate_clusters
        ⟨[((create_prompt [("1", ["CD3"])] "human" none none none, "m", "openai"),
            RawResult.text "T cells")],
          fun _ => none, fun _ _ _ _ => .ok (.lines ["X"])⟩
        [("1", ["CD3"])] "human" "openai" (some "m") (some "k") none none none
        true).calls = 0) :=
  ⟨rfl,
    (annotate_cache_roundtrip
      ⟨[((create_prompt [("1", ["CD3"])] "human" none none none, "m", "openai"),
          RawResult.text "T cells")],
        fun _ => none, fun _ _ _ _ => .ok (.lines ["X"])⟩
      [("1", ["CD3"])] "human" "openai" (some "m") (some "k") none none none "k"
      rfl).1 (.text "T cells") rfl rfl⟩

/-! ## Claim C3 -/

/-- Counterexample to C3 as stated: with `use_cache=True` and a truthy
pre-existing cache entry for the fingerprint, `annotate_clusters` with an
unknown provider returns the cached value successfully instead of raising
`ValueError` — the cache check precedes the provider-table check. -/
theorem unknown_provider_cache_hit_no_error :
    (annotate_clusters
      ⟨[((create_prompt [("1", ["CD3"])] "human" none none none, "unknown",
          "doesnotexist"), RawResult.text "cached")],
        fun _ => none, fun _ _ _ _ => .error "no"⟩
      [("1", ["CD3"])] "human" "doesnotexist" none (some "k") none none none
      true).result = .ok [("1", "cached")] :=
  rfl

/-- C3 (amended): an unknown provider is fatal — `annotate_clusters` and
`get_model_response` end in a `ValueError` with no provider call and no
cache write — whenever the cache does not yield a truthy pre-existing entry
for the fingerprint; on such a cache hit the cached value is returned with
no error (see the counterexample). -/
theorem unknown_provider_fatal (w : World) (marker : List (String × List String))
    (species provider prompt : String) (model apiKey : Option String)
    (tissue ctx tmpl : Option String) (useCache : Bool)
    (hprov : PROVIDER_FUNCTIONS.contains (pyLower provider) = false)
    (hmiss1 : ∀ v, cacheGet w.cache (create_cache_key
        (create_prompt marker species tissue ctx tmpl)
        (effModel provider model) provider) = some v → v.truthy = false)
    (hmiss2 : ∀ v, cacheGet w.cache (create_cache_key prompt
        (effModel provider model) provider) = some v → v.truthy = false) :
    ((∃ msg, (annotate_clusters w marker species provider model apiKey tissue ctx
        tmpl useCache).result = .error (.valueError msg)) ∧
      (annotate_clusters w marker species provider model apiKey tissue ctx tmpl
        useCache).calls = 0 ∧
      (annotate_clusters w marker species provider model apiKey tissue ctx tmpl
        useCache).writes = []) ∧
    ((∃ msg, (get_model_response w prompt provider model apiKey useCache).result =
        .error (.valueError msg)) ∧
      (get_model_response w prompt provider model apiKey useCache).calls = 0 ∧
      (get_model_response w prompt provider model apiKey useCache).writes = []) := by
  have hch1 : cacheHit useCache w.cache (create_cache_key
      (create_prompt marker species tissue ctx tmpl)
      (effModel provider model) provider) = none := by
    unfold cacheHit
    cases useCache with
    | false => rfl
    | true =>
      cases hg : cacheGet w.cache (create_cache_key
          (create_prompt marker species tissue ctx tmpl)
          (effModel provider model) provider) with
      | none => simp
      | some v => simp [hmiss1 v hg]
  have hch2 : cacheHit useCache w.cache (create_cache_key prompt
      (effModel provider model) provider) = none := by
    unfold cacheHit
    cases useCache with
    | false => rfl
    | true =>
      cases hg : cacheGet w.cache (create_cache_key prompt
          (effModel provider model) provider) with
      | none => simp
      | some v => simp [hmiss2 v hg]
  constructor
  · cases hres : resolveApiKey w provider apiKey with
    | none =>
      simp only [annotate_clusters, hres]
      refine ⟨⟨"API key not found for provider: " ++ provider, ?_⟩, ?_, ?_⟩ <;> simp
    | some k =>
      simp only [annotate_clusters, hres, hch1, hprov]
      refine ⟨⟨"Unknown provider: " ++ provider, ?_⟩, ?_, ?_⟩ <;> simp
  · by_cases hp0 : provider = ""
    · simp only [get_model_response, if_pos hp0]
      refine ⟨⟨"Provider name is required", ?_⟩, ?_, ?_⟩ <;> simp
    · cases hres : resolveApiKey w provider apiKey with
      | none =>
        simp only [get_model_response, if_neg hp0, hres]
        refine ⟨⟨"API key not found for provider: " ++ provider, ?_⟩, ?_, ?_⟩ <;> simp
      | some k =>
        simp only [get_model_response, if_neg hp0, hres, hch2, hprov]
        refine ⟨⟨"Unknown provider: " ++ provider, ?_⟩, ?_, ?_⟩ <;> simp

/-- Witness for C3 (amended) at a concrete unknown provider with an empty
cache. -/
theorem unknown_provider_fatal_witness :
    PROVIDER_FUNCTIONS.contains (pyLower "doesnotexist") = false ∧
    ((∃ msg, (annotate_clusters ⟨[], fun _ => none, fun _ _ _ _ => .error "no"⟩
        [("1", ["CD3"])] "human" "doesnotexist" none (some "k") none none none
        true).result = .error (.valueError msg)) ∧
      (annotate_clusters ⟨[], fun _ => none, fun _ _ _ _ => .error "no"⟩
        [("1", ["CD3"])] "human" "doesnotexist" none (some "k") none none none
        true).calls = 0 ∧
      (annotate_clusters ⟨[], fun _ => none, fun _ _ _ _ => .error "no"⟩
        [("1", ["CD3"])] "human" "doesnotexist" none (some "k") none none none
        true).writes = []) :=
  ⟨by decide,
    (unknown_provider_fatal ⟨[], fun _ => none, fun _ _ _ _ => .error "no"⟩
      [("1", ["CD3"])] "human" "doesnotexist" "p" none (some "k") none none none
      true (by decide) (by intro v hv; cases hv) (by intro v hv; cases hv)).1⟩

/-! ## Claim C10 -/

/-- C10: `get_model_response` returns a string on every non-raising path:
a cached or fresh list of lines is joined with newlines (`rawToStr` of a
`.lines` value is the newline join), a plain string is returned as-is. -/
theorem get_model_response_returns_string (w : World) (prompt provider : String)
    (model apiKey : Option String) (k : String)
    (hprov0 : provider ≠ "")
    (hk : resolveApiKey w provider apiKey = some k) :
    (∀ v, cacheGet w.cache (create_cache_key prompt (effModel provider model)
        provider) = some v →
      v.truthy = true →
      (get_model_response w prompt provider model apiKey true).result =
        .ok (rawToStr v)) ∧
    (∀ r, (∀ v, cacheGet w.cache (create_cache_key prompt (effModel provider model)
        provider) = some v → v.truthy = false) →
      PROVIDER_FUNCTIONS.contains (pyLower provider) = true →
      w.call (pyLower provider) prompt (effModel provider model) k = .ok r →
      (get_model_response w prompt provider model apiKey true).result =
        .ok (rawToStr r)) ∧
    (∀ xs, rawToStr (.lines xs) = strJoin "\n" xs) ∧
    (∀ s, rawToStr (.text s) = s) := by
  refine ⟨?_, ?_, fun _ => rfl, fun _ => rfl⟩
  · intro v hv htr
    have hch : cacheHit true w.cache (create_cache_key prompt
        (effModel provider model) provider) = some v := by
      simp [cacheHit, hv, htr]
    simp only [get_model_response, if_neg hprov0, hk, hch]
  · intro r hmiss hprov hcall
    have hch : cacheHit true w.cache (create_cache_key prompt
        (effModel provider model) provider) = none := by
      unfold cacheHit
      cases hg : cacheGet w.cache (create_cache_key prompt
          (effModel provider model) provider) with
      | none => simp
      | some v => simp [hmiss v hg]
    simp only [get_model_response, if_neg hprov0, hk, hch, hprov, hcall]
    simp

/-- Witness for C10: a cached list of lines is returned newline-joined. -/
theorem get_model_response_returns_string_witness :
    ("openai" : String) ≠ "" ∧
    resolveApiKey ⟨[(("p", "m", "openai"), RawResult.lines ["a", "b"])],
      fun _ => none, fun _ _ _ _ => .error "no"⟩ "openai" (some "k") = some "k" ∧
    (get_model_response ⟨[(("p", "m", "openai"), RawResult.lines ["a", "b"])],
      fun _ => none, fun _ _ _ _ => .error "no"⟩ "p" "openai" (some "m")
      (some "k") true).result = .ok "a\nb" :=
  ⟨by decide, rfl,
    (get_model_response_returns_string
      ⟨[(("p", "m", "openai"), RawResult.lines ["a", "b"])],
        fun _ => none, fun _ _ _ _ => .error "no"⟩
      "p" "openai" (some "m") (some "k") "k" (by decide) rfl).1
      (.lines ["a", "b"]) rfl rfl⟩

/-! ## Lemmas about dictionary keys in the batch parser -/

theorem foldl_invariant {α σ : Type} (P : σ → Prop) (f : σ → α → σ)
    (hstep : ∀ s a, P s → P (f s a)) :
    ∀ (l : List α) (s : σ), P s → P (l.foldl f s)
  | [], _, h => h
  | a :: l, s, h => foldl_invariant P f hstep l (f s a) (hstep s a h)

theorem objInsert_keys (d : List (String × Json)) (k : String) (v : Json) :
    (objInsert d k v).map Prod.fst =
      if k ∈ d.map Prod.fst then d.map Prod.fst else d.map Prod.fst ++ [k] := by
  unfold objInsert
  by_cases h : d.any (fun p => p.1 = k) = true
  · have hmem : k ∈ d.map Prod.fst := by
      simp only [List.any_eq_true, decide_eq_true_eq] at h
      obtain ⟨p, hp, he⟩ := h
      exact List.mem_map.mpr ⟨p, hp, he⟩
    rw [if_pos h, if_pos hmem, List.map_map]
    apply List.map_congr_left
    intro p hp
    by_cases hpk : p.1 = k
    · simp [hpk]
    · simp [hpk]
  · have hmem : k ∉ d.map Prod.fst := by
      simp only [List.any_eq_true, decide_eq_true_eq] at h
      intro hc
      obtain ⟨p, hp, he⟩ := List.mem_map.mp hc
      exact h ⟨p, hp, he⟩
    rw [if_neg h, if_neg hmem]
    simp

theorem objInsert_keys_nodup (d : List (String × Json)) (k : String) (v : Json)
    (h : (d.map Prod.fst).Nodup) : ((objInsert d k v).map Prod.fst).Nodup := by
  rw [objInsert_keys]
  by_cases hm : k ∈ d.map Prod.fst
  · simpa [hm] using h
  · simp [hm, List.nodup_append, h]

theorem foldl_objInsert_keys (v : String → Json) :
    ∀ (cl : List String) (d : List (String × Json)),
      cl.Nodup → (∀ c ∈ cl, c ∉ d.map Prod.fst) →
      (cl.foldl (fun d c => objInsert d c (v c)) d).map Prod.fst =
        d.map Prod.fst ++ cl := by
  intro cl
  induction cl with
  | nil => intro d _ _; simp
  | cons c rest ih =>
    intro d hcl hdis
    simp only [List.foldl_cons]
    have hc : c ∉ d.map Prod.fst := hdis c (by simp)
    have hkeys : (objInsert d c (v c)).map Prod.fst = d.map Prod.fst ++ [c] := by
      rw [objInsert_keys, if_neg hc]
    have hrest := ih (objInsert d c (v c)) hcl.of_cons ?_
    · rw [hrest, hkeys]
      simp
    · intro x hx
      rw [hkeys]
      simp only [List.mem_append, List.mem_singleton]
      rintro (hx1 | hx2)
      · exact hdis x (by simp [hx]) hx1
      · subst hx2
        exact (List.nodup_cons.mp hcl).1 hx

theorem parse_fallback_keys :
    ∀ (clustersList : List (List String)) (n : Nat),
      (∀ cl ∈ clustersList, cl.Nodup) →
      ((List.enumFrom n clustersList).map (fun p =>
        p.2.foldl (fun d c => objInsert d c
          (.jstr ("Set " ++ toString (p.1 + 1) ++ " results not properly parsed")))
          [])).map (fun d => d.map Prod.fst) = clustersList := by
  intro clustersList
  induction clustersList with
  | nil => intro n _; simp
  | cons cl rest ih =>
    intro n hnd
    simp only [List.enumFrom_cons, List.map_cons]
    rw [ih (n + 1) (fun c hc => hnd c (by simp [hc]))]
    rw [foldl_objInsert_keys _ cl [] (hnd cl (by simp)) (by simp)]
    simp

/-- The invariant maintained by the line scan: every finished set and the
current set have no duplicate cluster keys. -/
def scanInv (st : LineScanState) : Prop :=
  (∀ d ∈ st.resultSets, (d.map Prod.fst).Nodup) ∧ (st.current.map Prod.fst).Nodup

theorem lineScanStep_inv (st : LineScanState) (line : String) (h : scanInv st) :
    scanInv (lineScanStep st line) := by
  obtain ⟨h1, h2⟩ := h
  unfold lineScanStep
  by_cases hs : pyStartsWith (pyStrip line) "Set " = true
  · simp only [hs, if_true]
    by_cases hflush : (st.currentSet.isSome && !st.current.isEmpty) = true
    · simp only [hflush, if_true]
      constructor
      · intro d hd
        simp only [List.mem_append, List.mem_singleton] at hd
        rcases hd with hd | hd
        · exact h1 d hd
        · subst hd; exact h2
      · simp
    · simp only [hflush, if_false]
      exact ⟨h1, h2⟩
  · simp only [hs, if_false]
    by_cases hc : pyStartsWith (pyStrip line) "Cluster " = true
    · simp only [hc, if_true]
      cases hg : (pySplitWs (pySplitColonOnce (pyStrip line)).1).get? 1 with
      | none => exact ⟨h1, h2⟩
      | some cnum =>
        by_cases hcs : st.currentSet.isSome = true
        · simp only [hcs, if_true]
          exact ⟨h1, objInsert_keys_nodup _ _ _ h2⟩
        · simp only [hcs, if_false]
          exact ⟨h1, h2⟩
    · simp only [hc, if_false]
      exact ⟨h1, h2⟩

theorem lineScan_nodup (filtered : List String) :
    ∀ d ∈ lineScan filtered, (d.map Prod.fst).Nodup := by
  have hinv : scanInv (filtered.foldl lineScanStep ⟨[], none, []⟩) :=
    foldl_invariant scanInv lineScanStep lineScanStep_inv filtered
      ⟨[], none, []⟩ ⟨by simp, by simp⟩
  obtain ⟨h1, h2⟩ := hinv
  unfold lineScan
  intro d hd
  by_cases hfin : ((filtered.foldl lineScanStep ⟨[], none, []⟩).currentSet.isSome &&
      !(filtered.foldl lineScanStep ⟨[], none, []⟩).current.isEmpty) = true
  · simp only [hfin, if_true] at hd
    simp only [List.mem_append, List.mem_singleton] at hd
    rcases hd with hd | hd
    · exact h1 d hd
    · subst hd; exact h2
  · simp only [hfin, if_false] at hd
    exact h1 d hd

/-! ## Claim C1 -/

/-- Counterexample to C1 as stated: parsed from the `Set N:`/`Cluster N:`
line format, the per-set dictionary keys come from the response text, not
from the input marker sets — here the input clusters are `"1"` and `"2"`
but the only entry is for `"99"`. -/
theorem batch_lineformat_keys_counterexample :
    (batch_annotate_clusters
      ⟨[], fun _ => none, fun _ _ _ _ => .ok (.lines ["Set 1:", "Cluster 99: Foo"])⟩
      [[("1", ["g1"]), ("2", ["g2"])]] "human" "openai" (some "m") (some "k")
      .noneArg none none false).result = .ok [[("99", Json.jstr "Foo")]] ∧
    [[("99", Json.jstr "Foo")]].map (fun d => d.map Prod.fst) = [["99"]] ∧
    ¬ ("1" : String) ∈ ["99"] :=
  ⟨rfl, rfl, by decide⟩

/-- C1 (amended): when both parsing strategies produce nothing, the
fallback returns one dictionary per input cluster set whose keys are
exactly (each exactly once) the cluster ids of the corresponding input
marker set; dictionaries parsed from the `Set N:`/`Cluster N:` line format
contain each cluster id at most once, but their key sets come from the
response and need not coincide with the input cluster ids. -/
theorem batch_fallback_exact_keys (results : List String)
    (clustersList : List (List String))
    (hline : (lineScan (results.filter (fun l => !(pyStrip l == "")))).isEmpty = true)
    (hjson : (jsonStrategy (strJoin "\n"
      (results.filter (fun l => !(pyStrip l == ""))))).isEmpty = true)
    (hnd : ∀ cl ∈ clustersList, cl.Nodup) :
    (parseBatchResults results clustersList).map (fun d => d.map Prod.fst) =
      clustersList ∧
    ∀ (filtered : List String), ∀ d ∈ lineScan filtered, (d.map Prod.fst).Nodup := by
  constructor
  · rw [parseBatchResults]
    simp only [hline, if_true, hjson]
    exact parse_fallback_keys clustersList 0 hnd
  · exact lineScan_nodup

/-- Witness for C1 (amended) at a concrete unparseable response. -/
theorem batch_fallback_exact_keys_witness :
    ((lineScan (["garbage"].filter (fun l => !(pyStrip l == "")))).isEmpty = true ∧
      (jsonStrategy (strJoin "\n"
        (["garbage"].filter (fun l => !(pyStrip l == ""))))).isEmpty = true ∧
      ∀ cl ∈ [["1", "2"]], cl.Nodup) ∧
    (parseBatchResults ["garbage"] [["1", "2"]]).map (fun d => d.map Prod.fst) =
      [["1", "2"]] :=
  ⟨⟨rfl, rfl, by decide⟩,
    (batch_fallback_exact_keys ["garbage"] [["1", "2"]] rfl rfl (by decide)).1⟩

/-! ## Claim C5 -/

/-- Counterexample to C5 as stated: with an empty input list of marker sets
and an unparseable response, `batch_annotate_clusters` returns the empty
list of result sets, not a non-empty one. -/
theorem batch_empty_input_empty_result :
    (batch_annotate_clusters
      ⟨[], fun _ => none, fun _ _ _ _ => .ok (.lines ["hello"])⟩
      [] "human" "openai" (some "m") (some "k") .noneArg none none false).result =
      .ok ([] : List (List (String × Json))) :=
  rfl

/-- C5 (amended): the batch result parsing is a fixed-order total chain —
the `Set N:`/`Cluster N:` line scan first; only when it produces no sets
the JSON extraction; and when both produce nothing, one placeholder
dictionary per input cluster set — so the returned list is non-empty
whenever the input list of cluster sets is non-empty (with an empty input
list and an unparseable response it is empty). -/
theorem parse_chain (results : List String) (clustersList : List (List String)) :
    ((lineScan (results.filter (fun l => !(pyStrip l == "")))).isEmpty = false →
      parseBatchResults results clustersList =
        lineScan (results.filter (fun l => !(pyStrip l == "")))) ∧
    ((lineScan (results.filter (fun l => !(pyStrip l == "")))).isEmpty = true →
      (jsonStrategy (strJoin "\n"
        (results.filter (fun l => !(pyStrip l == ""))))).isEmpty = false →
      parseBatchResults results clustersList =
        jsonStrategy (strJoin "\n" (results.filter (fun l => !(pyStrip l == ""))))) ∧
    ((lineScan (results.filter (fun l => !(pyStrip l == "")))).isEmpty = true →
      (jsonStrategy (strJoin "\n"
        (results.filter (fun l => !(pyStrip l == ""))))).isEmpty = true →
      parseBatchResults results clustersList =
        clustersList.enum.map (fun p =>
          p.2.foldl (fun d c => objInsert d c
            (.jstr ("Set " ++ toString (p.1 + 1) ++ " results not properly parsed")))
            [])) ∧
    (clustersList.isEmpty = false →
      (parseBatchResults results clustersList).isEmpty = false) := by
  by_cases hL : (lineScan (results.filter (fun l => !(pyStrip l == "")))).isEmpty = true
  · by_cases hJ : (jsonStrategy (strJoin "\n"
        (results.filter (fun l => !(pyStrip l == ""))))).isEmpty = true
    · have hP : parseBatchResults results clustersList =
          clustersList.enum.map (fun p =>
            p.2.foldl (fun d c => objInsert d c
              (.jstr ("Set " ++ toString (p.1 + 1) ++ " results not properly parsed")))
              []) := by
        rw [parseBatchResults]
        simp only [hL, if_true, hJ]
      refine ⟨(fun h => absurd hL (by simp [h])), (fun _ h => absurd hJ (by simp [h])),
        (fun _ _ => hP), (fun hne => ?_)⟩
      rw [hP]
      cases clustersList with
      | nil => simp at hne
      | cons cl rest => rfl
    · have hP : parseBatchResults results clustersList =
          jsonStrategy (strJoin "\n" (results.filter (fun l => !(pyStrip l == "")))) := by
        rw [parseBatchResults]
        simp only [hL, if_true]
        rw [if_neg (by simp_all)]
      refine ⟨(fun h => absurd hL (by simp [h])), (fun _ _ => hP),
        (fun _ hj => absurd hj hJ), (fun _ => ?_)⟩
      rw [hP]
      simpa using hJ
  · have hL' : (lineScan (results.filter (fun l => !(pyStrip l == "")))).isEmpty = false := by
      simpa using hL
    have hP : parseBatchResults results clustersList =
        lineScan (results.filter (fun l => !(pyStrip l == ""))) := by
      rw [parseBatchResults]
      simp only [hL', Bool.false_eq_true, if_false]
    refine ⟨(fun _ => hP), (fun h => absurd h hL), (fun h => absurd h hL), (fun _ => ?_)⟩
    rw [hP]
    exact hL'

/-- Witness for C5 (amended): a line-format response takes the first
strategy, and a non-empty input list yields a non-empty result. -/
theorem parse_chain_witness :
    ((lineScan (["Set 1:", "Cluster 1: X"].filter
        (fun l => !(pyStrip l == "")))).isEmpty = false ∧
      parseBatchResults ["Set 1:", "Cluster 1: X"] [["1"]] =
        lineScan (["Set 1:", "Cluster 1: X"].filter (fun l => !(pyStrip l == "")))) ∧
    (([["1"]] : List (List String)).isEmpty = false ∧
      (parseBatchResults ["Set 1:", "Cluster 1: X"] [["1"]]).isEmpty = false) :=
  ⟨⟨rfl, (parse_chain ["Set 1:", "Cluster 1: X"] [["1"]]).1 rfl⟩,
    ⟨rfl, (parse_chain ["Set 1:", "Cluster 1: X"] [["1"]]).2.2.2 rfl⟩⟩

end MLLMCelltype
